import Mathlib

/-!
Verification of the APK/APEX signature-verification core and its
BoringSSL error taxonomy.

Two parts are developed here.

The first part is a direct shallow embedding of the crypto backend's
structured reason codes, translated from `libs/bssl/error/src/code.rs`:
the enums `ReasonCode`, `GlobalError` and `CipherError`, their derived
`Debug` renderings and their `Display` implementations.  Rust's `i32`
reason/library codes are embedded as `Int` and the `{code}` interpolation
of Rust's formatter as decimal rendering via `toString`.

The second part is a model of the `verify()` pipeline (signing-block
location, record parsing, algorithm registry, chunked digest engine and
the signer verifier).  The implementation of that pipeline is not among
the repository's staged files (only its test suite is), so every
definition of that part is modelled from the specification's own
description of the pipeline, as the doc comments note.
-/

/-! ## Part 1: the BoringSSL reason-code taxonomy (from code.rs) -/

/-- Global errors may occur in any library (code.rs, `GlobalError`). -/
inductive GlobalError
  | Fatal
  | MallocFailure
  | ShouldNotHaveBeenCalled
  | PassedNullParameter
  | InternalError
  | Overflow
  deriving DecidableEq

/-- Errors occurred in the Cipher functions (code.rs, `CipherError`). -/
inductive CipherError
  | AesKeySetupFailed
  | BadDecrypt
  | BadKeyLength
  | BufferTooSmall
  | CtrlNotImplemented
  | CtrlOperationNotImplemented
  | DataNotMultipleOfBlockLength
  | InitializationError
  | InputNotInitialized
  | InvalidAdSize
  | InvalidKeyLength
  | InvalidNonceSize
  | InvalidOperation
  | IvTooLarge
  | NoCipherSet
  | OutputAliasesInput
  | TagTooLarge
  | TooLarge
  | WrongFinalBlockLength
  | NoDirectionSet
  | InvalidNonce
  deriving DecidableEq

/-- BoringSSL reason code (code.rs, `ReasonCode`).  The raw reason and
library codes of the `Unknown` variant are Rust `i32` values, embedded
as `Int`. -/
inductive ReasonCode
  | NoError
  | Global (g : GlobalError)
  | Cipher (c : CipherError)
  | Unknown (code : Int) (lib : Int)
  deriving DecidableEq

/-- The derived `Debug` rendering of a `GlobalError` value: the bare
variant name, as Rust's `derive(Debug)` prints it. -/
def GlobalError.debugRepr : GlobalError → String
  | .Fatal => "Fatal"
  | .MallocFailure => "MallocFailure"
  | .ShouldNotHaveBeenCalled => "ShouldNotHaveBeenCalled"
  | .PassedNullParameter => "PassedNullParameter"
  | .InternalError => "InternalError"
  | .Overflow => "Overflow"

/-- The derived `Debug` rendering of a `CipherError` value. -/
def CipherError.debugRepr : CipherError → String
  | .AesKeySetupFailed => "AesKeySetupFailed"
  | .BadDecrypt => "BadDecrypt"
  | .BadKeyLength => "BadKeyLength"
  | .BufferTooSmall => "BufferTooSmall"
  | .CtrlNotImplemented => "CtrlNotImplemented"
  | .CtrlOperationNotImplemented => "CtrlOperationNotImplemented"
  | .DataNotMultipleOfBlockLength => "DataNotMultipleOfBlockLength"
  | .InitializationError => "InitializationError"
  | .InputNotInitialized => "InputNotInitialized"
  | .InvalidAdSize => "InvalidAdSize"
  | .InvalidKeyLength => "InvalidKeyLength"
  | .InvalidNonceSize => "InvalidNonceSize"
  | .InvalidOperation => "InvalidOperation"
  | .IvTooLarge => "IvTooLarge"
  | .NoCipherSet => "NoCipherSet"
  | .OutputAliasesInput => "OutputAliasesInput"
  | .TagTooLarge => "TagTooLarge"
  | .TooLarge => "TooLarge"
  | .WrongFinalBlockLength => "WrongFinalBlockLength"
  | .NoDirectionSet => "NoDirectionSet"
  | .InvalidNonce => "InvalidNonce"

/-- The derived `Debug` rendering of a `ReasonCode` value, as Rust's
`derive(Debug)` prints a tuple-variant enum. -/
def ReasonCode.debugRepr : ReasonCode → String
  | .NoError => "NoError"
  | .Global g => "Global(" ++ g.debugRepr ++ ")"
  | .Cipher c => "Cipher(" ++ c.debugRepr ++ ")"
  | .Unknown code lib => "Unknown(" ++ toString code ++ ", " ++ toString lib ++ ")"

/-- `impl fmt::Display for ReasonCode` (code.rs lines 31-41): `NoError`
and `Unknown` have bespoke texts; every other value falls through to the
`Debug` rendering of the `ReasonCode` itself (`{other:?}`). -/
def ReasonCode.display : ReasonCode → String
  | .NoError => "No error in the BoringSSL error queue."
  | .Unknown code lib =>
      "Unknown reason code '" ++ toString code ++ "' from the library '" ++
        toString lib ++ "'"
  | other => other.debugRepr

/-- `impl fmt::Display for GlobalError` (code.rs lines 58-62). -/
def GlobalError.display (g : GlobalError) : String :=
  "A global error occurred: " ++ g.debugRepr

/-- `impl fmt::Display for CipherError` (code.rs lines 94-98). -/
def CipherError.display (c : CipherError) : String :=
  "An error occurred in a Cipher function: " ++ c.debugRepr

/-! ## Substring containment, used to state the "message contains" and
"text never appears" parts of the observable error contract. -/

/-- Whether the character list `s` starts with the list `pat`. -/
def listStarts : List Char → List Char → Bool
  | [], _ => true
  | _ :: _, [] => false
  | a :: as, b :: bs => a == b && listStarts as bs

/-- Whether `pat` occurs as a contiguous run somewhere inside `s`. -/
def listHas (pat : List Char) : List Char → Bool
  | [] => pat.isEmpty
  | c :: rest => listStarts pat (c :: rest) || listHas pat rest

/-- Whether the string `s` contains the string `pat` as a substring. -/
def strContains (s pat : String) : Bool :=
  listHas pat.data s.data

/-! ## Part 2: the verify() pipeline, modelled from the specification.

The implementation of `verify()` is not among the repository's staged
source files (only `libs/apkverify/tests/apkverify_test.rs`, its test
suite, is), so the definitions below are modelled from the
specification's description of the pipeline: the block locator (spec
4.1), record parser (4.2), algorithm registry (4.3), chunked digest
engine (4.4), signer verifier state machine (4.5), error taxonomy (7)
and external interfaces (6). -/

/-- Bytes of a file or record, one natural number (0..255) per byte. -/
abbrev Bytes := List Nat

/-- Modelled from the spec: the algorithm identifiers the registry
recognizes (spec 4.3 and section 8: RSA-PKCS1 with SHA-256/SHA-512 and
ECDSA with SHA-256 are supported; DSA with SHA-256 and ECDSA with
SHA-512 are recognized but intentionally unimplemented; everything else
is an unknown wire identifier). -/
inductive AlgorithmId
  | rsaPkcs1Sha256
  | rsaPkcs1Sha512
  | ecdsaSha256
  | ecdsaSha512
  | dsaSha256
  | other (wireId : Nat)
  deriving DecidableEq

/-- Modelled from the spec: the registry's three-way partition of
algorithm identifiers (spec 4.3: "known and supported", "known but
unsupported", "unknown"). -/
inductive AlgClass
  | supported
  | knownUnsupported
  | unknownAlg
  deriving DecidableEq

/-- Modelled from the spec: classification of each identifier
(spec 4.3 with section 8's concrete algorithm lists). -/
def classify : AlgorithmId → AlgClass
  | .rsaPkcs1Sha256 => .supported
  | .rsaPkcs1Sha512 => .supported
  | .ecdsaSha256 => .supported
  | .ecdsaSha512 => .knownUnsupported
  | .dsaSha256 => .knownUnsupported
  | .other _ => .unknownAlg

/-- Modelled from the spec: the registry's fixed priority order over
algorithms (spec 4.3: "a fixed priority order ranks supported
algorithms (e.g., stronger hash before weaker, a given signature family
before another)"; the exact order is not observable in the staged
files, any fixed order satisfies the spec). -/
def rank : AlgorithmId → Nat
  | .rsaPkcs1Sha256 => 1
  | .rsaPkcs1Sha512 => 2
  | .ecdsaSha256 => 3
  | .ecdsaSha512 => 4
  | .dsaSha256 => 0
  | .other _ => 0

/-- Modelled from the spec: one entry of a signer's `digests` or
`signatures` sequence: an algorithm identifier, the record-level
"ignorable" mark (spec 4.3 and glossary: "an entry explicitly marked as
safe to skip when unsupported/unrecognized") and the entry's payload
bytes (a claimed digest, or signature bytes). -/
structure AlgEntry where
  alg : AlgorithmId
  ignorable : Bool
  data : Bytes
  deriving DecidableEq

/-- Modelled from the spec: one signer extracted from the scheme block
(spec section 3, `SignerRecord`): the raw signed-data byte range (kept
verbatim for signature verification), the platform-version bounds
(opaque to verification, spec 4.2), the digests, certificates,
additional attributes and signatures. -/
structure SignerRecord where
  signedData : Bytes
  minSdk : Nat
  maxSdk : Nat
  digests : List AlgEntry
  certificates : List Bytes
  additionalAttributes : List (Nat × Bytes)
  signatures : List AlgEntry
  deriving DecidableEq

/-- Modelled from the spec: the value of one `(id, value)` pair of the
signing block.  A pair whose id matches the scheme's magic ID carries a
signer sequence; any other pair's value is an uninterpreted byte string
that the parser skips (spec 4.2: entries whose id does not match are
skipped for forward compatibility). -/
inductive PairValue
  | signers (ss : List SignerRecord)
  | raw (b : Bytes)
  deriving DecidableEq

/-- Modelled from the spec: one `(id: u32, value: bytes)` pair of the
signing block (spec section 3, `SigningBlock`). -/
structure BlockPair where
  id : Nat
  value : PairValue
  deriving DecidableEq

/-- Modelled from the spec: the facts about one input archive that the
pipeline consumes (spec section 3): the container bytes before the
signing block, the signing block's header-declared and footer-declared
sizes, its footer magic bytes, its pair sequence, the central directory
and the end-of-central-directory record. -/
structure Apk where
  contents : Bytes
  sbHeaderSize : Nat
  sbPairs : List BlockPair
  sbFooterSize : Nat
  sbMagic : Bytes
  cd : Bytes
  eocd : Bytes
  deriving DecidableEq

/-- Modelled from the spec: the fixed magic value of the signing-block
footer (spec 4.1), the 16 ASCII bytes of "APK Sig Block 42". -/
def BLOCK_MAGIC : Bytes :=
  [0x41, 0x50, 0x4b, 0x20, 0x53, 0x69, 0x67, 0x20,
   0x42, 0x6c, 0x6f, 0x63, 0x6b, 0x20, 0x34, 0x32]

/-- Modelled from the spec: the scheme V3 magic pair ID (spec 4.2). -/
def V3_BLOCK_ID : Nat := 0xf05368c0

/-- Modelled from the spec: the recognized "provenance stamp"
additional-attribute ID (spec 4.2; the spec fixes its existence, not
its numeric value). -/
def STAMP_ATTR_ID : Nat := 0xe43c5946

/-- Modelled from the spec: the minimum structure required to hold a
signing block before the central directory (spec 4.1): the 8-byte size
field, the 16-byte magic and the 8-byte header-side size field. -/
def MIN_BLOCK_SIZE : Nat := 32

/-- On-disk size of the signing block: the footer-declared size counts
everything after the leading 8-byte size field. -/
def Apk.blockOnDiskSize (a : Apk) : Nat := a.sbFooterSize + 8

/-- Offset of the central directory inside the container. -/
def Apk.cdOffset (a : Apk) : Nat := a.contents.length + a.blockOnDiskSize

/-- The external ZIP reader's own error kinds (spec section 6; the
`zip` crate's `ZipError` as the test suite matches on it). -/
inductive ZipError
  | invalidArchive (msg : String)
  | unsupportedArchive (msg : String)
  | fileNotFound
  | ioError (msg : String)
  deriving DecidableEq

/-- Modelled from the spec: the error taxonomy of the core (spec
section 7): structural, algorithm and cryptographic kinds, plus the
delegated kind wrapping an archive-corruption error of the external
ZIP reader, propagated with its original classification. -/
inductive VerifyError
  | tooSmall
  | noSigningBlock
  | sizeMismatch
  | malformedRecord
  | wrongSignerCount
  | noCertificates
  | algorithmSetMismatch
  | noSupportedAlgorithm
  | notImplemented
  | signatureInvalid
  | digestMismatch
  | publicKeyMismatch
  | zip (e : ZipError)
  deriving DecidableEq

/-- Display text of a ZIP reader error (the `zip` crate's texts). -/
def ZipError.message : ZipError → String
  | .invalidArchive m => "Invalid Zip archive: " ++ m
  | .unsupportedArchive m => "Unsupported Zip archive: " ++ m
  | .fileNotFound => "specified file not found in archive"
  | .ioError m => m

/-- Modelled from the spec: the user-facing message of each error kind
(spec section 6 lists the exact substrings of the observable
contract); a delegated ZIP error keeps the reader's own text. -/
def VerifyError.message : VerifyError → String
  | .tooSmall => "APK too small for APK Signing Block"
  | .noSigningBlock => "No APK Signing Block"
  | .sizeMismatch => "APK Signing Block sizes in header and footer do not match"
  | .malformedRecord => "Malformed APK Signing Block record"
  | .wrongSignerCount => "APK Signature Scheme V3 requires exactly one signer"
  | .noCertificates => "No certificates listed"
  | .algorithmSetMismatch =>
      "Signature algorithms don't match between digests and signatures records"
  | .noSupportedAlgorithm => "No supported signatures found"
  | .notImplemented => "not implemented"
  | .signatureInvalid => "Signature is invalid"
  | .digestMismatch => "Digest mismatch"
  | .publicKeyMismatch => "Public key mismatch"
  | .zip e => e.message

/-- Whether an error is the delegated kind: an error of the external
ZIP reader surfaced unmodified (spec section 7, "Delegated"). -/
def VerifyError.isDelegated : VerifyError → Bool
  | .zip _ => true
  | _ => false

/-- The original ZIP reader error recoverable from a delegated error,
`none` for every error kind of the core itself. -/
def VerifyError.zipCause : VerifyError → Option ZipError
  | .zip e => some e
  | _ => none

/-- Modelled from the spec: the block locator (spec 4.1).  The file
must be large enough to hold the minimum signing-block structure before
the central directory (`tooSmall` otherwise, a guard for the footer
read); the footer magic must match the fixed magic value
(`noSigningBlock` otherwise); the header-declared and footer-declared
sizes must agree (`sizeMismatch` otherwise). -/
def locateSigningBlock (a : Apk) : Except VerifyError Unit :=
  if a.cdOffset < MIN_BLOCK_SIZE then .error .tooSmall
  else if a.sbMagic ≠ BLOCK_MAGIC then .error .noSigningBlock
  else if a.sbHeaderSize ≠ a.sbFooterSize then .error .sizeMismatch
  else .ok ()

/-- Modelled from the spec: the values of the pairs whose id matches
the scheme's magic ID, in on-disk order; pairs with any other id are
skipped (spec 4.2, forward compatibility). -/
def schemeEntries (a : Apk) : List PairValue :=
  (a.sbPairs.filter (fun p => decide (p.id = V3_BLOCK_ID))).map (fun p => p.value)

/-- Modelled from the spec: the record parser (spec 4.2).  Exactly one
scheme-matching entry is expected, carrying the signer sequence; for
scheme V3 that sequence must hold exactly one signer
(`wrongSignerCount` otherwise), whose certificate list must not be
empty (`noCertificates` otherwise).  A scheme entry that does not
decode as a signer sequence, or a missing or duplicated scheme entry,
is a malformed record. -/
def parseSigner (a : Apk) : Except VerifyError SignerRecord :=
  match schemeEntries a with
  | [PairValue.signers ss] =>
      match ss with
      | [s] => if s.certificates.isEmpty then .error .noCertificates else .ok s
      | _ => .error .wrongSignerCount
  | _ => .error .malformedRecord

/-- The algorithm identifiers of a digests or signatures sequence. -/
def entryIds (l : List AlgEntry) : List AlgorithmId := l.map (fun e => e.alg)

/-- Modelled from the spec: the cross-check of the signer verifier
(spec 4.5 step 1): the set of algorithm identifiers in `digests` must
equal the set in `signatures`. -/
def idSetEq (d s : List AlgEntry) : Bool :=
  (entryIds d).all (fun i => decide (i ∈ entryIds s)) &&
    (entryIds s).all (fun i => decide (i ∈ entryIds d))

/-- The highest-priority identifier of a list, by the registry's rank. -/
def pickBest : List AlgorithmId → Option AlgorithmId
  | [] => none
  | i :: rest =>
      match pickBest rest with
      | none => some i
      | some j => if rank j < rank i then some i else some j

/-- The highest-priority identifier classified "supported" among the
identifiers of a signatures sequence. -/
def bestSupported (sigs : List AlgEntry) : Option AlgorithmId :=
  pickBest ((entryIds sigs).filter (fun i => decide (classify i = AlgClass.supported)))

/-- Modelled from the spec: algorithm selection (spec 4.5 step 2): among
the identifiers present, pick the highest-priority supported one; when
none is supported, the presence of a known-but-unsupported identifier
not marked ignorable surfaces as `notImplemented`, and otherwise no
supported signature was found. -/
def selectAlgorithm (sigs : List AlgEntry) : Except VerifyError AlgorithmId :=
  match bestSupported sigs with
  | some i => .ok i
  | none =>
      if sigs.any (fun e =>
          decide (classify e.alg = AlgClass.knownUnsupported) && !e.ignorable) then
        .error .notImplemented
      else .error .noSupportedAlgorithm

/-- The payload bytes recorded for an algorithm in a digests or
signatures sequence (first matching entry). -/
def dataFor (alg : AlgorithmId) (l : List AlgEntry) : Bytes :=
  match l.find? (fun e => decide (e.alg = alg)) with
  | some e => e.data
  | none => []

/-- Modelled from the spec: the chunk size of the chunked digest engine
(spec 4.4), 1 MiB. -/
def CHUNK_SIZE : Nat := 1048576

/-- Modelled from the spec: the 1-byte "chunk" marker (spec 4.4). -/
def CHUNK_MARKER : Nat := 0xa5

/-- Modelled from the spec: the distinct 1-byte "top-level" marker
(spec 4.4). -/
def TOP_MARKER : Nat := 0x5a

/-- A number as 4 bytes, little-endian (spec 4.4). -/
def lenLE32 (n : Nat) : Bytes :=
  [n % 256, n / 256 % 256, n / 65536 % 256, n / 16777216 % 256]

/-- Number of fixed-size chunks covering `len` bytes (final chunk may
be shorter). -/
def chunkCount (len : Nat) : Nat := (len + CHUNK_SIZE - 1) / CHUNK_SIZE

/-- Modelled from the spec: the target range split into fixed-size
chunks of `CHUNK_SIZE` bytes, the final chunk possibly shorter
(spec 4.4). -/
def chunkify (data : Bytes) : List Bytes :=
  (List.range (chunkCount data.length)).map
    (fun i => (data.drop (i * CHUNK_SIZE)).take CHUNK_SIZE)

/-- Modelled from the spec: the chunked digest engine (spec 4.4).  Each
chunk is hashed under the chunk marker, its length (4 bytes,
little-endian) and its bytes; the final digest hashes the top-level
marker, the chunk count and all per-chunk digests in strict chunk
order. -/
def chunkedDigest (hash : Bytes → Bytes) (data : Bytes) : Bytes :=
  let chunks := chunkify data
  let per := chunks.map (fun c => hash (CHUNK_MARKER :: (lenLE32 c.length ++ c)))
  hash (TOP_MARKER :: (lenLE32 chunks.length ++ per.flatten))

/-- Modelled from the spec: the position of the "offset of central
directory" field inside the end-of-central-directory record, whose
stored value is rewritten before digesting (spec 4.4). -/
def EOCD_CD_OFFSET_POS : Nat := 16

/-- The 4 bytes at position `pos` of `b` replaced by `v`,
little-endian. -/
def setLE32At (b : Bytes) (pos v : Nat) : Bytes :=
  b.take pos ++ lenLE32 v ++ b.drop (pos + 4)

/-- Modelled from the spec: the byte range the content digest covers
(spec 4.4): all container bytes up to the signing block, then the
central directory, then the end-of-central-directory record with its
central-directory offset rewritten to the value it would have had had
the signing block never been inserted (the offset of the signing block
itself, i.e. the length of `contents`). -/
def digestSource (a : Apk) : Bytes :=
  a.contents ++ a.cd ++ setLE32At a.eocd EOCD_CD_OFFSET_POS a.contents.length

/-- The external cryptographic primitive backend (spec section 6, an
excluded collaborator): per-algorithm hash functions, the
signature-verify primitive, and extraction of the verification key and
of the subject-public-key-info key bytes from a certificate. -/
structure CryptoOps where
  hash : AlgorithmId → Bytes → Bytes
  verifySig : AlgorithmId → Bytes → Bytes → Bytes → Bool
  extractPublicKey : Bytes → Bytes
  spkiPublicKey : Bytes → Bytes

/-- Modelled from the spec: the signer verifier's state machine
(spec 4.5), one signer: cross-check the algorithm sets (step 1), select
the strongest supported algorithm (step 2), verify the signature of the
raw signed data under the key extracted from the signing certificate
(step 3), recompute and compare the content digest (step 4), and check
the public key used against the certificate's subject-public-key-info
(step 5); the first failed step is terminal. -/
def verifySigner (ops : CryptoOps) (a : Apk) (s : SignerRecord) :
    Except VerifyError Unit :=
  if idSetEq s.digests s.signatures = true then
    match selectAlgorithm s.signatures with
    | .error e => .error e
    | .ok alg =>
        let cert0 := s.certificates.headD []
        let key := ops.extractPublicKey cert0
        if ops.verifySig alg key s.signedData (dataFor alg s.signatures) = true then
          if chunkedDigest (ops.hash alg) (digestSource a) = dataFor alg s.digests then
            if key = ops.spkiPublicKey cert0 then .ok ()
            else .error .publicKeyMismatch
          else .error .digestMismatch
        else .error .signatureInvalid
  else .error .algorithmSetMismatch

/-- Modelled from the spec: verification of one archive whose container
layout the ZIP reader supplied: locator, then parser, then the signer
verifier (spec section 2, control flow). -/
def verifyApk (ops : CryptoOps) (a : Apk) : Except VerifyError Unit :=
  match locateSigningBlock a with
  | .error e => .error e
  | .ok _ =>
      match parseSigner a with
      | .error e => .error e
      | .ok s => verifySigner ops a s

/-- Modelled from the spec: the single public entry point (spec
section 6).  The input is what the external ZIP reader produced for the
path: its own corruption error, surfaced to the caller unmodified as
the delegated error kind, or the archive's container facts, handed to
the core pipeline. -/
def verify (ops : CryptoOps) (input : Except ZipError Apk) :
    Except VerifyError Unit :=
  match input with
  | .error e => .error (.zip e)
  | .ok a => verifyApk ops a

/-! ## Archive transformations, used to state the forward-compatibility
properties (spec 4.2 and 4.3: benign additions must not cause failure). -/

/-- A signer transformation applied inside a scheme pair's value; a
non-scheme value is untouched. -/
def mapSignerValue (f : SignerRecord → SignerRecord) : PairValue → PairValue
  | .signers ss => .signers (ss.map f)
  | .raw b => .raw b

/-- A signer transformation applied to every scheme-matching pair of an
archive's signing block; the container fields are untouched. -/
def mapSignerApk (f : SignerRecord → SignerRecord) (a : Apk) : Apk :=
  { a with
    sbPairs := a.sbPairs.map (fun p =>
      if p.id = V3_BLOCK_ID then ⟨p.id, mapSignerValue f p.value⟩ else p) }

/-- The signer with its additional-attributes sequence replaced. -/
def setAttrs (attrs : List (Nat × Bytes)) (s : SignerRecord) : SignerRecord :=
  { s with additionalAttributes := attrs }

/-- The archive with the signer's additional-attributes sequence
replaced (spec 4.2: unknown attribute IDs and the provenance-stamp
attribute are accepted and ignored). -/
def setSignerAttrs (a : Apk) (attrs : List (Nat × Bytes)) : Apk :=
  mapSignerApk (setAttrs attrs) a

/-- The archive with one more `(id, value)` pair appended to its
signing block (spec 4.2: pairs of other schemes may coexist). -/
def addPair (a : Apk) (p : BlockPair) : Apk :=
  { a with sbPairs := a.sbPairs ++ [p] }

/-- The signer with one more entry appended to its digests sequence and
one to its signatures sequence. -/
def addAlgEntry (d e : AlgEntry) (s : SignerRecord) : SignerRecord :=
  { s with digests := s.digests ++ [d], signatures := s.signatures ++ [e] }

/-- The archive with one more algorithm entry recorded in the signer's
digests and signatures sequences (spec 4.3: ignorable unsupported
entries must not block verification). -/
def addAlgApk (a : Apk) (d e : AlgEntry) : Apk :=
  mapSignerApk (addAlgEntry d e) a

/-! ## Concrete sample data, used by the witnesses below. -/

/-- A sample crypto backend whose hash is the identity and whose
signature check accepts. -/
def demoOps : CryptoOps :=
  { hash := fun _ b => b
    verifySig := fun _ _ _ _ => true
    extractPublicKey := fun b => b
    spkiPublicKey := fun b => b }

/-- A sample crypto backend whose signature check rejects. -/
def demoBadSigOps : CryptoOps :=
  { demoOps with verifySig := fun _ _ _ _ => false }

/-- Sample container bytes before the signing block. -/
def demoContents : Bytes := [80, 75, 3, 4]

/-- Sample central-directory bytes. -/
def demoCd : Bytes := [80, 75, 1, 2]

/-- Sample end-of-central-directory record (22 zero bytes). -/
def demoEocd : Bytes := List.replicate 22 0

/-- Sample certificate bytes. -/
def demoCert : Bytes := [48, 130, 1, 1]

/-- The content digest of the sample container under `demoOps`. -/
def demoDigest : Bytes :=
  chunkedDigest (demoOps.hash AlgorithmId.ecdsaSha256)
    (demoContents ++ demoCd ++ setLE32At demoEocd EOCD_CD_OFFSET_POS demoContents.length)

/-- A sample correctly-signed signer record using ECDSA with SHA-256. -/
def demoSigner : SignerRecord :=
  { signedData := [10, 20, 30]
    minSdk := 28
    maxSdk := 34
    digests := [⟨.ecdsaSha256, false, demoDigest⟩]
    certificates := [demoCert]
    additionalAttributes := []
    signatures := [⟨.ecdsaSha256, false, [99, 98]⟩] }

/-- A sample well-formed archive holding `demoSigner`. -/
def demoApk : Apk :=
  { contents := demoContents
    sbHeaderSize := 100
    sbPairs := [⟨V3_BLOCK_ID, .signers [demoSigner]⟩]
    sbFooterSize := 100
    sbMagic := BLOCK_MAGIC
    cd := demoCd
    eocd := demoEocd }

/-- A sample signer whose only algorithm is DSA with SHA-256. -/
def demoDsaSigner : SignerRecord :=
  { demoSigner with
    digests := [⟨.dsaSha256, false, [0]⟩]
    signatures := [⟨.dsaSha256, false, [1]⟩] }

/-- A sample archive whose only signing algorithm is DSA with SHA-256. -/
def demoDsaApk : Apk :=
  { demoApk with sbPairs := [⟨V3_BLOCK_ID, .signers [demoDsaSigner]⟩] }

/-- A sample signer whose digests and signatures name different
algorithm sets. -/
def demoMismatchSigner : SignerRecord :=
  { demoSigner with digests := [⟨.rsaPkcs1Sha256, false, [0]⟩] }

/-- A sample archive whose digests and signatures records disagree. -/
def demoMismatchApk : Apk :=
  { demoApk with sbPairs := [⟨V3_BLOCK_ID, .signers [demoMismatchSigner]⟩] }

/-- A sample archive whose footer magic is wrong. -/
def demoBadMagicApk : Apk :=
  { demoApk with sbMagic := List.replicate 16 0 }

/-! ## Helper lemmas about substring containment -/

/-- Every character of a starting run is a character of the list. -/
theorem listStarts_subset {pat s : List Char} (h : listStarts pat s = true) :
    ∀ ch ∈ pat, ch ∈ s := by
  induction pat generalizing s with
  | nil => intro ch hch; cases hch
  | cons a as ih =>
    cases s with
    | nil => simp [listStarts] at h
    | cons b bs =>
      simp only [listStarts, Bool.and_eq_true, beq_iff_eq] at h
      obtain ⟨hab, hrest⟩ := h
      intro ch hch
      rcases List.mem_cons.mp hch with rfl | hch
      · exact hab ▸ List.mem_cons_self _ _
      · exact List.mem_cons_of_mem _ (ih hrest ch hch)

/-- Every character of a contained run is a character of the list. -/
theorem listHas_subset {pat s : List Char} (h : listHas pat s = true) :
    ∀ ch ∈ pat, ch ∈ s := by
  induction s with
  | nil =>
    simp only [listHas, List.isEmpty_iff] at h
    subst h; intro ch hch; cases hch
  | cons c rest ih =>
    simp only [listHas, Bool.or_eq_true] at h
    rcases h with h | h
    · exact listStarts_subset h
    · intro ch hch; exact List.mem_cons_of_mem _ (ih h ch hch)

/-- A run holding a character the list lacks is not contained in it. -/
theorem listHas_eq_false {pat s : List Char} {ch : Char}
    (hp : ch ∈ pat) (hs : ch ∉ s) : listHas pat s = false := by
  cases h : listHas pat s with
  | false => rfl
  | true => exact absurd (listHas_subset h ch hp) hs

/-- Starting with oneself always holds. -/
theorem listStarts_refl (l : List Char) : listStarts l l = true := by
  induction l with
  | nil => rfl
  | cons a as ih => simp [listStarts, ih]

/-- A list contains itself as a run. -/
theorem listHas_self (l : List Char) : listHas l l = true := by
  cases l with
  | nil => rfl
  | cons c rest => simp [listHas, listStarts_refl]

/-- Every string contains itself as a substring. -/
theorem strContains_self (s : String) : strContains s s = true :=
  listHas_self s.data

/-! ## Helper lemmas about decimal rendering: a rendered integer never
holds a colon, which separates the Display texts of `GlobalError` and
`CipherError` from every `ReasonCode` Display output. -/

/-- No digit character is a colon. -/
theorem digitChar_ne_colon (n : Nat) : Nat.digitChar n ≠ ':' := by
  rcases Nat.lt_or_ge n 16 with h | h
  · interval_cases n <;> decide
  · have hne : ∀ k < 16, n ≠ k := fun k hk => by omega
    have hstar : Nat.digitChar n = '*' := by
      unfold Nat.digitChar
      simp [hne 0 (by norm_num), hne 1 (by norm_num), hne 2 (by norm_num),
        hne 3 (by norm_num), hne 4 (by norm_num), hne 5 (by norm_num),
        hne 6 (by norm_num), hne 7 (by norm_num), hne 8 (by norm_num),
        hne 9 (by norm_num), hne 10 (by norm_num), hne 11 (by norm_num),
        hne 12 (by norm_num), hne 13 (by norm_num), hne 14 (by norm_num),
        hne 15 (by norm_num)]
    rw [hstar]
    decide

/-- The decimal rendering core adds only digit characters. -/
theorem toDigitsCore_ne_colon : ∀ (fuel n : Nat) (l : List Char),
    (∀ ch ∈ l, ch ≠ ':') → ∀ ch ∈ Nat.toDigitsCore 10 fuel n l, ch ≠ ':' := by
  intro fuel
  induction fuel with
  | zero => intro n l hl; exact hl
  | succ f ih =>
    intro n l hl
    by_cases h0 : n / 10 = 0
    · intro ch hch
      have hch' : ch ∈ Nat.digitChar (n % 10) :: l := by
        simpa [Nat.toDigitsCore, h0] using hch
      rcases List.mem_cons.mp hch' with rfl | hmem
      · exact digitChar_ne_colon _
      · exact hl _ hmem
    · intro ch hch
      have hch' : ch ∈ Nat.toDigitsCore 10 f (n / 10) (Nat.digitChar (n % 10) :: l) := by
        simpa [Nat.toDigitsCore, h0] using hch
      refine ih (n / 10) _ ?_ ch hch'
      intro x hx
      rcases List.mem_cons.mp hx with rfl | hmem
      · exact digitChar_ne_colon _
      · exact hl _ hmem

/-- A rendered natural number holds no colon. -/
theorem natRepr_ne_colon (n : Nat) : ∀ ch ∈ (Nat.repr n).data, ch ≠ ':' := by
  intro ch hch
  have hch' : ch ∈ Nat.toDigitsCore 10 (n + 1) n [] := hch
  exact toDigitsCore_ne_colon (n + 1) n [] (by intro x hx; cases hx) ch hch'

/-- A rendered integer holds no colon. -/
theorem intToString_ne_colon (i : Int) : ∀ ch ∈ (toString i).data, ch ≠ ':' := by
  cases i with
  | ofNat m => intro ch hch; exact natRepr_ne_colon m ch hch
  | negSucc m =>
    intro ch hch
    have hch' : ch ∈ ("-" ++ Nat.repr (m + 1)).data := hch
    rw [String.data_append] at hch'
    rcases List.mem_append.mp hch' with h | h
    · have : ch = '-' := by simpa using h
      subst this; decide
    · exact natRepr_ne_colon _ ch h

/-- No Display output of a `ReasonCode` holds a colon. -/
theorem reasonCodeDisplay_ne_colon (r : ReasonCode) :
    ∀ ch ∈ (ReasonCode.display r).data, ch ≠ ':' := by
  cases r with
  | NoError => decide
  | Global g => cases g <;> decide
  | Cipher c => cases c <;> decide
  | Unknown code lib =>
    intro ch hch
    have hch' : ch ∈ ("Unknown reason code '" ++ toString code ++
        "' from the library '" ++ toString lib ++ "'").data := hch
    simp only [String.data_append, List.mem_append] at hch'
    rcases hch' with (((h | h) | h) | h) | h
    · exact (by decide : ∀ x ∈ ("Unknown reason code '").data, x ≠ ':') ch h
    · exact intToString_ne_colon code ch h
    · exact (by decide : ∀ x ∈ ("' from the library '").data, x ≠ ':') ch h
    · exact intToString_ne_colon lib ch h
    · exact (by decide : ∀ x ∈ ("'").data, x ≠ ':') ch h

/-- The Display text of every `GlobalError` holds a colon. -/
theorem globalDisplay_has_colon (g : GlobalError) :
    ':' ∈ (GlobalError.display g).data := by
  unfold GlobalError.display
  rw [String.data_append]
  exact List.mem_append.mpr (Or.inl (by decide))

/-- The Display text of every `CipherError` holds a colon. -/
theorem cipherDisplay_has_colon (c : CipherError) :
    ':' ∈ (CipherError.display c).data := by
  unfold CipherError.display
  rw [String.data_append]
  exact List.mem_append.mpr (Or.inl (by decide))

/-! ## The claims about the BoringSSL reason-code taxonomy -/

/-- C4: the crypto-backend failure reason code is exactly the closed
set the spec describes: every `ReasonCode` is `NoError`, `Global g`
with `g` among the six named global failure reasons, `Cipher c` with
`c` among the twenty-one named cipher-layer failure reasons, or
`Unknown rawCode rawLibraryId`; no other variant exists. -/
theorem reasonCode_closed_set :
    (∀ r : ReasonCode,
      r = .NoError ∨ (∃ g, r = .Global g) ∨ (∃ c, r = .Cipher c) ∨
        ∃ code lib, r = .Unknown code lib) ∧
    (∀ g : GlobalError,
      g = .Fatal ∨ g = .MallocFailure ∨ g = .ShouldNotHaveBeenCalled ∨
        g = .PassedNullParameter ∨ g = .InternalError ∨ g = .Overflow) ∧
    (∀ c : CipherError,
      c = .AesKeySetupFailed ∨ c = .BadDecrypt ∨ c = .BadKeyLength ∨
        c = .BufferTooSmall ∨ c = .CtrlNotImplemented ∨
        c = .CtrlOperationNotImplemented ∨ c = .DataNotMultipleOfBlockLength ∨
        c = .InitializationError ∨ c = .InputNotInitialized ∨
        c = .InvalidAdSize ∨ c = .InvalidKeyLength ∨ c = .InvalidNonceSize ∨
        c = .InvalidOperation ∨ c = .IvTooLarge ∨ c = .NoCipherSet ∨
        c = .OutputAliasesInput ∨ c = .TagTooLarge ∨ c = .TooLarge ∨
        c = .WrongFinalBlockLength ∨ c = .NoDirectionSet ∨ c = .InvalidNonce) := by
  refine ⟨?_, ?_, ?_⟩
  · intro r
    cases r with
    | NoError => exact Or.inl rfl
    | Global g => exact Or.inr (Or.inl ⟨g, rfl⟩)
    | Cipher c => exact Or.inr (Or.inr (Or.inl ⟨c, rfl⟩))
    | Unknown code lib => exact Or.inr (Or.inr (Or.inr ⟨code, lib, rfl⟩))
  · intro g; cases g <;> decide
  · intro c; cases c <;> decide

/-- C10: Display of `ReasonCode` is a total function and yields exactly
the `NoError` text for `NoError`, exactly the "Unknown reason code"
text for `Unknown`, and the Debug rendering of the `ReasonCode` variant
for `Global` and `Cipher` values; consequently the separate Display
texts of `GlobalError` and `CipherError` never appear inside any
`ReasonCode` Display output. -/
theorem reasonCode_display_contract :
    ReasonCode.display .NoError = "No error in the BoringSSL error queue." ∧
    (∀ code lib : Int, (ReasonCode.Unknown code lib).display =
      "Unknown reason code '" ++ toString code ++ "' from the library '" ++
        toString lib ++ "'") ∧
    (∀ g, (ReasonCode.Global g).display = (ReasonCode.Global g).debugRepr) ∧
    (∀ c, (ReasonCode.Cipher c).display = (ReasonCode.Cipher c).debugRepr) ∧
    (∀ r g, strContains (ReasonCode.display r) (GlobalError.display g) = false) ∧
    (∀ r c, strContains (ReasonCode.display r) (CipherError.display c) = false) := by
  refine ⟨rfl, fun _ _ => rfl, fun _ => rfl, fun _ => rfl, ?_, ?_⟩
  · intro r g
    exact listHas_eq_false (globalDisplay_has_colon g)
      (fun hmem => reasonCodeDisplay_ne_colon r ':' hmem rfl)
  · intro r c
    exact listHas_eq_false (cipherDisplay_has_colon c)
      (fun hmem => reasonCodeDisplay_ne_colon r ':' hmem rfl)

/-! ## Helper lemmas about the pipeline -/

/-- When the locator and parser succeed, verification is the signer
verifier's verdict. -/
theorem verifyApk_eq_verifySigner (ops : CryptoOps) (a : Apk) (s : SignerRecord)
    (hloc : locateSigningBlock a = .ok ()) (hparse : parseSigner a = .ok s) :
    verifyApk ops a = verifySigner ops a s := by
  unfold verifyApk
  rw [hloc, hparse]

/-- Success of the whole pipeline is success of each stage. -/
theorem verifyApk_ok_inv {ops : CryptoOps} {a : Apk}
    (h : verifyApk ops a = .ok ()) :
    locateSigningBlock a = .ok () ∧
      ∃ s, parseSigner a = .ok s ∧ verifySigner ops a s = .ok () := by
  unfold verifyApk at h
  cases hl : locateSigningBlock a with
  | error e =>
    rw [hl] at h
    exact Except.noConfusion (show (Except.error e : Except VerifyError Unit) = .ok () from h)
  | ok u =>
    cases u
    rw [hl] at h
    cases hp : parseSigner a with
    | error e =>
      rw [hp] at h
      exact Except.noConfusion (show (Except.error e : Except VerifyError Unit) = .ok () from h)
    | ok s =>
      rw [hp] at h
      exact ⟨rfl, s, rfl, h⟩

/-- Success of the parser pins down the scheme entries and a nonempty
certificate list. -/
theorem parseSigner_ok_inv {a : Apk} {s : SignerRecord}
    (h : parseSigner a = .ok s) :
    schemeEntries a = [PairValue.signers [s]] ∧ s.certificates.isEmpty = false := by
  unfold parseSigner at h
  cases hse : schemeEntries a with
  | nil => rw [hse] at h; exact Except.noConfusion h
  | cons v rest =>
    rw [hse] at h
    cases rest with
    | cons w ws => cases v <;> exact Except.noConfusion h
    | nil =>
      cases v with
      | raw b => exact Except.noConfusion h
      | signers ss =>
        cases ss with
        | nil => exact Except.noConfusion h
        | cons s1 stail =>
          cases stail with
          | cons _ _ => exact Except.noConfusion h
          | nil =>
            have h' : (if s1.certificates.isEmpty = true then
                (Except.error VerifyError.noCertificates : Except VerifyError SignerRecord)
              else .ok s1) = .ok s := h
            by_cases hc : s1.certificates.isEmpty = true
            · rw [if_pos hc] at h'; exact Except.noConfusion h'
            · rw [if_neg hc] at h'
              cases h'
              exact ⟨rfl, by simpa using hc⟩

/-- Success of the signer verifier is success of each of its steps. -/
theorem verifySigner_ok_inv {ops : CryptoOps} {a : Apk} {s : SignerRecord}
    (h : verifySigner ops a s = .ok ()) :
    idSetEq s.digests s.signatures = true ∧
      ∃ alg, selectAlgorithm s.signatures = .ok alg ∧
        ops.verifySig alg (ops.extractPublicKey (s.certificates.headD []))
          s.signedData (dataFor alg s.signatures) = true ∧
        chunkedDigest (ops.hash alg) (digestSource a) = dataFor alg s.digests ∧
        ops.extractPublicKey (s.certificates.headD []) =
          ops.spkiPublicKey (s.certificates.headD []) := by
  unfold verifySigner at h
  by_cases hs : idSetEq s.digests s.signatures = true
  · rw [if_pos hs] at h
    refine ⟨hs, ?_⟩
    cases hsel : selectAlgorithm s.signatures with
    | error e =>
      rw [hsel] at h
      exact Except.noConfusion (show (Except.error e : Except VerifyError Unit) = .ok () from h)
    | ok alg =>
      rw [hsel] at h
      have h' : (if ops.verifySig alg (ops.extractPublicKey (s.certificates.headD []))
          s.signedData (dataFor alg s.signatures) = true then
          if chunkedDigest (ops.hash alg) (digestSource a) = dataFor alg s.digests then
            if ops.extractPublicKey (s.certificates.headD []) =
                ops.spkiPublicKey (s.certificates.headD []) then
              (Except.ok () : Except VerifyError Unit)
            else .error .publicKeyMismatch
          else .error .digestMismatch
        else .error .signatureInvalid) = .ok () := h
      by_cases hv : ops.verifySig alg (ops.extractPublicKey (s.certificates.headD []))
          s.signedData (dataFor alg s.signatures) = true
      · rw [if_pos hv] at h'
        by_cases hd : chunkedDigest (ops.hash alg) (digestSource a) = dataFor alg s.digests
        · rw [if_pos hd] at h'
          by_cases hk : ops.extractPublicKey (s.certificates.headD []) =
              ops.spkiPublicKey (s.certificates.headD [])
          · exact ⟨alg, rfl, hv, hd, hk⟩
          · rw [if_neg hk] at h'; exact Except.noConfusion h'
        · rw [if_neg hd] at h'; exact Except.noConfusion h'
      · rw [if_neg hv] at h'; exact Except.noConfusion h'
  · rw [if_neg hs] at h; exact Except.noConfusion h

/-- A selected algorithm is the best supported one. -/
theorem selectAlgorithm_ok {sigs : List AlgEntry} {alg : AlgorithmId}
    (h : selectAlgorithm sigs = .ok alg) : bestSupported sigs = some alg := by
  unfold selectAlgorithm at h
  cases hb : bestSupported sigs with
  | some i =>
    rw [hb] at h
    have h' : (Except.ok i : Except VerifyError AlgorithmId) = .ok alg := h
    cases h'
    rfl
  | none =>
    rw [hb] at h
    by_cases ha : sigs.any (fun e =>
        decide (classify e.alg = AlgClass.knownUnsupported) && !e.ignorable) = true
    · rw [if_pos ha] at h; exact Except.noConfusion h
    · rw [if_neg ha] at h; exact Except.noConfusion h

/-- The pick of a list is a member of it. -/
theorem pickBest_mem : ∀ {l : List AlgorithmId} {x : AlgorithmId},
    pickBest l = some x → x ∈ l := by
  intro l
  induction l with
  | nil => intro x h; exact Option.noConfusion h
  | cons i rest ih =>
    intro x h
    unfold pickBest at h
    cases hr : pickBest rest with
    | none =>
      rw [hr] at h
      have h' : some i = some x := h
      cases h'
      exact List.mem_cons_self _ _
    | some j =>
      rw [hr] at h
      have h' : (if rank j < rank i then some i else some j) = some x := h
      by_cases hc : rank j < rank i
      · rw [if_pos hc] at h'; cases h'; exact List.mem_cons_self _ _
      · rw [if_neg hc] at h'; cases h'; exact List.mem_cons_of_mem _ (ih hr)

/-- The best supported algorithm is supported and among the entries. -/
theorem bestSupported_spec {sigs : List AlgEntry} {alg : AlgorithmId}
    (h : bestSupported sigs = some alg) :
    classify alg = .supported ∧ alg ∈ entryIds sigs := by
  have hmem := pickBest_mem h
  rw [List.mem_filter] at hmem
  obtain ⟨h1, h2⟩ := hmem
  exact ⟨by simpa using h2, h1⟩

/-- The algorithm-set cross-check as mutual membership. -/
theorem idSetEq_iff {d s : List AlgEntry} :
    idSetEq d s = true ↔
      (∀ i ∈ entryIds d, i ∈ entryIds s) ∧ ∀ i ∈ entryIds s, i ∈ entryIds d := by
  simp [idSetEq, List.all_eq_true]

/-! ## The claims about the verify() pipeline -/

/-- C9: verification is a deterministic function of the input: two
calls of `verify` on the same unmodified input yield the same result;
the model (like the pipeline it is modelled from) threads no state
between calls. -/
theorem verify_deterministic (ops : CryptoOps) (input : Except ZipError Apk) :
    verify ops input = verify ops input := rfl

/-- C8: an error of the external ZIP reader (for instance a truncated
central directory) is propagated as the delegated error kind holding
the reader's own error unmodified, recoverable as the root cause and
distinct from every error kind of the core itself. -/
theorem verify_propagates_zip_error (ops : CryptoOps) (e : ZipError) :
    verify ops (.error e) = .error (.zip e) ∧
    (VerifyError.zip e).zipCause = some e ∧
    (VerifyError.zip e).isDelegated = true ∧
    ∀ k : VerifyError, k.isDelegated = false → VerifyError.zip e ≠ k := by
  refine ⟨rfl, rfl, rfl, ?_⟩
  intro k hk he
  rw [← he] at hk
  exact absurd hk (by simp [VerifyError.isDelegated])

/-- Witness for C8 at a concrete truncated-central-directory error. -/
theorem verify_propagates_zip_error_witness :
    verify demoOps (.error (ZipError.invalidArchive "Could not find central directory end")) =
      .error (.zip (ZipError.invalidArchive "Could not find central directory end")) :=
  (verify_propagates_zip_error demoOps
    (ZipError.invalidArchive "Could not find central directory end")).1

/-- C7: an archive large enough for the footer read whose footer magic
differs from the fixed magic value (which is how an archive with no
signing block at all presents itself to the locator) fails with the
`noSigningBlock` kind, whose message contains "No APK Signing Block". -/
theorem verify_noSigningBlock_of_bad_magic (ops : CryptoOps) (a : Apk)
    (hbig : ¬ a.cdOffset < MIN_BLOCK_SIZE) (hmagic : a.sbMagic ≠ BLOCK_MAGIC) :
    verifyApk ops a = .error .noSigningBlock ∧
    strContains (VerifyError.noSigningBlock.message) "No APK Signing Block" = true := by
  constructor
  · have hloc : locateSigningBlock a = .error .noSigningBlock := by
      unfold locateSigningBlock
      rw [if_neg hbig, if_pos hmagic]
    unfold verifyApk
    rw [hloc]
  · exact strContains_self _

/-- Witness for C7 at a concrete wrong-magic archive. -/
theorem verify_noSigningBlock_of_bad_magic_witness :
    verifyApk demoOps demoBadMagicApk = .error .noSigningBlock ∧
    strContains (VerifyError.noSigningBlock.message) "No APK Signing Block" = true :=
  verify_noSigningBlock_of_bad_magic demoOps demoBadMagicApk (by decide) (by decide)

/-- C6: an archive whose digests record and signatures record name
different algorithm-identifier sets fails with `algorithmSetMismatch`,
before algorithm selection is even consulted, and the message contains
the exact cross-check text. -/
theorem verify_algorithmSetMismatch (ops : CryptoOps) (a : Apk) (s : SignerRecord)
    (hloc : locateSigningBlock a = .ok ()) (hparse : parseSigner a = .ok s)
    (hsets : idSetEq s.digests s.signatures = false) :
    verifyApk ops a = .error .algorithmSetMismatch ∧
    strContains (VerifyError.algorithmSetMismatch.message)
      "Signature algorithms don't match between digests and signatures records" = true := by
  refine ⟨?_, strContains_self _⟩
  rw [verifyApk_eq_verifySigner ops a s hloc hparse]
  unfold verifySigner
  rw [hsets]
  simp

/-- Witness for C6 at a concrete mismatching archive. -/
theorem verify_algorithmSetMismatch_witness :
    verifyApk demoOps demoMismatchApk = .error .algorithmSetMismatch ∧
    strContains (VerifyError.algorithmSetMismatch.message)
      "Signature algorithms don't match between digests and signatures records" = true :=
  verify_algorithmSetMismatch demoOps demoMismatchApk demoMismatchSigner rfl rfl rfl

/-- C1: a well-formed archive (locator and parser succeed) that is
correctly signed under a supported selected algorithm (the signature
verifies, the recomputed content digest matches the claimed digest, and
the certificate's key is consistent) verifies successfully; the
selected algorithm is indeed classified supported. -/
theorem verify_ok_of_correctly_signed (ops : CryptoOps) (a : Apk)
    (s : SignerRecord) (alg : AlgorithmId)
    (hloc : locateSigningBlock a = .ok ())
    (hparse : parseSigner a = .ok s)
    (hsets : idSetEq s.digests s.signatures = true)
    (hsel : selectAlgorithm s.signatures = .ok alg)
    (hsig : ops.verifySig alg (ops.extractPublicKey (s.certificates.headD []))
      s.signedData (dataFor alg s.signatures) = true)
    (hdig : chunkedDigest (ops.hash alg) (digestSource a) = dataFor alg s.digests)
    (hkey : ops.extractPublicKey (s.certificates.headD []) =
      ops.spkiPublicKey (s.certificates.headD [])) :
    verifyApk ops a = .ok () ∧ classify alg = .supported := by
  refine ⟨?_, (bestSupported_spec (selectAlgorithm_ok hsel)).1⟩
  rw [verifyApk_eq_verifySigner ops a s hloc hparse]
  unfold verifySigner
  rw [hsets, hsel]
  show (if ops.verifySig alg (ops.extractPublicKey (s.certificates.headD []))
      s.signedData (dataFor alg s.signatures) = true then
      if chunkedDigest (ops.hash alg) (digestSource a) = dataFor alg s.digests then
        if ops.extractPublicKey (s.certificates.headD []) =
            ops.spkiPublicKey (s.certificates.headD []) then
          (Except.ok () : Except VerifyError Unit)
        else .error .publicKeyMismatch
      else .error .digestMismatch
    else .error .signatureInvalid) = .ok ()
  rw [if_pos hsig, if_pos hdig, if_pos hkey]

/-- Witness for C1 at a concrete correctly-signed archive. -/
theorem verify_ok_of_correctly_signed_witness :
    verifyApk demoOps demoApk = .ok () ∧
    classify AlgorithmId.ecdsaSha256 = .supported :=
  verify_ok_of_correctly_signed demoOps demoApk demoSigner .ecdsaSha256
    rfl rfl rfl rfl rfl rfl rfl

/-- C2: an archive whose only signing algorithms are DSA with SHA-256
or ECDSA with SHA-512 (recognized but intentionally unimplemented, and
not marked ignorable) fails with the `notImplemented` kind, whose
message contains "not implemented". -/
theorem verify_notImplemented_of_unimplemented_algs (ops : CryptoOps) (a : Apk)
    (s : SignerRecord)
    (hloc : locateSigningBlock a = .ok ())
    (hparse : parseSigner a = .ok s)
    (hsets : idSetEq s.digests s.signatures = true)
    (hne : s.signatures ≠ [])
    (honly : ∀ e ∈ s.signatures,
      (e.alg = .dsaSha256 ∨ e.alg = .ecdsaSha512) ∧ e.ignorable = false) :
    verifyApk ops a = .error .notImplemented ∧
    strContains (VerifyError.notImplemented.message) "not implemented" = true := by
  refine ⟨?_, strContains_self _⟩
  have hbest : bestSupported s.signatures = none := by
    unfold bestSupported
    have hfil : (entryIds s.signatures).filter
        (fun i => decide (classify i = AlgClass.supported)) = [] := by
      rw [List.filter_eq_nil_iff]
      intro i hi
      rw [entryIds, List.mem_map] at hi
      obtain ⟨e, he, rfl⟩ := hi
      rcases (honly e he).1 with h | h <;> simp [h, classify]
    rw [hfil]
    rfl
  have hany : s.signatures.any (fun e =>
      decide (classify e.alg = AlgClass.knownUnsupported) && !e.ignorable) = true := by
    rw [List.any_eq_true]
    obtain ⟨e, he⟩ := List.exists_mem_of_ne_nil s.signatures hne
    refine ⟨e, he, ?_⟩
    obtain ⟨halg, hign⟩ := honly e he
    rcases halg with h | h <;> simp [h, hign, classify]
  have hsel : selectAlgorithm s.signatures = .error .notImplemented := by
    unfold selectAlgorithm
    rw [hbest, if_pos hany]
  rw [verifyApk_eq_verifySigner ops a s hloc hparse]
  unfold verifySigner
  rw [hsets, hsel]
  rfl

/-- Witness for C2 at a concrete DSA-only archive. -/
theorem verify_notImplemented_witness :
    verifyApk demoOps demoDsaApk = .error .notImplemented ∧
    strContains (VerifyError.notImplemented.message) "not implemented" = true :=
  verify_notImplemented_of_unimplemented_algs demoOps demoDsaApk demoDsaSigner
    rfl rfl rfl (by decide)
    (by
      intro e he
      have he' : e ∈ [(⟨.dsaSha256, false, [1]⟩ : AlgEntry)] := he
      rw [List.mem_singleton] at he'
      subst he'
      exact ⟨Or.inl rfl, rfl⟩)

/-- C3: for a well-formed archive whose algorithm sets are consistent
and whose selected algorithm is supported (as after flipping a byte of
the signed data, the signature bytes, or digested content of a
correctly signed archive), verification fails with exactly
`signatureInvalid` when the crypto backend rejects the signature, and
with exactly `digestMismatch` when the signature still verifies but the
recomputed content digest differs from the claimed one; no other error
kind occurs, and the two kinds carry the exact message texts. -/
theorem verify_tampered (ops : CryptoOps) (a : Apk) (s : SignerRecord)
    (alg : AlgorithmId)
    (hloc : locateSigningBlock a = .ok ())
    (hparse : parseSigner a = .ok s)
    (hsets : idSetEq s.digests s.signatures = true)
    (hsel : selectAlgorithm s.signatures = .ok alg)
    (hbad : ops.verifySig alg (ops.extractPublicKey (s.certificates.headD []))
        s.signedData (dataFor alg s.signatures) = true →
      chunkedDigest (ops.hash alg) (digestSource a) ≠ dataFor alg s.digests) :
    verifyApk ops a = .error
      (if ops.verifySig alg (ops.extractPublicKey (s.certificates.headD []))
          s.signedData (dataFor alg s.signatures) = true then
        VerifyError.digestMismatch
      else VerifyError.signatureInvalid) ∧
    strContains (VerifyError.signatureInvalid.message) "Signature is invalid" = true ∧
    strContains (VerifyError.digestMismatch.message) "Digest mismatch" = true := by
  refine ⟨?_, strContains_self _, strContains_self _⟩
  rw [verifyApk_eq_verifySigner ops a s hloc hparse]
  unfold verifySigner
  rw [hsets, hsel]
  show (if ops.verifySig alg (ops.extractPublicKey (s.certificates.headD []))
      s.signedData (dataFor alg s.signatures) = true then
      if chunkedDigest (ops.hash alg) (digestSource a) = dataFor alg s.digests then
        if ops.extractPublicKey (s.certificates.headD []) =
            ops.spkiPublicKey (s.certificates.headD []) then
          (Except.ok () : Except VerifyError Unit)
        else .error .publicKeyMismatch
      else .error .digestMismatch
    else .error .signatureInvalid) = _
  by_cases hv : ops.verifySig alg (ops.extractPublicKey (s.certificates.headD []))
      s.signedData (dataFor alg s.signatures) = true
  · rw [if_pos hv, if_pos hv, if_neg (hbad hv)]
  · rw [if_neg hv, if_neg hv]

/-- Witness for C3 at a concrete archive whose signature the backend
rejects. -/
theorem verify_tampered_witness :
    verifyApk demoBadSigOps demoApk = .error .signatureInvalid := by
  have h := verify_tampered demoBadSigOps demoApk demoSigner .ecdsaSha256
    rfl rfl rfl rfl (by intro hv; exact absurd hv (by decide))
  simpa using h.1

/-! ## Helper lemmas for the forward-compatibility claim -/

/-- A signer transformation commutes with scheme-entry extraction, on
the pair level. -/
theorem schemeEntries_mapAux (f : SignerRecord → SignerRecord) (l : List BlockPair) :
    ((l.map (fun p =>
        if p.id = V3_BLOCK_ID then BlockPair.mk p.id (mapSignerValue f p.value)
        else p)).filter (fun p => decide (p.id = V3_BLOCK_ID))).map (fun p => p.value) =
      ((l.filter (fun p => decide (p.id = V3_BLOCK_ID))).map (fun p => p.value)).map
        (mapSignerValue f) := by
  induction l with
  | nil => rfl
  | cons p rest ih =>
    by_cases hp : p.id = V3_BLOCK_ID
    · simp [List.filter_cons, hp, ih]
    · simp [List.filter_cons, hp, ih]

/-- A signer transformation commutes with scheme-entry extraction. -/
theorem schemeEntries_map (f : SignerRecord → SignerRecord) (a : Apk) :
    schemeEntries (mapSignerApk f a) = (schemeEntries a).map (mapSignerValue f) :=
  schemeEntries_mapAux f a.sbPairs

/-- A signer transformation that keeps certificates nonempty carries
parser success through. -/
theorem parseSigner_map {a : Apk} {s : SignerRecord}
    (f : SignerRecord → SignerRecord)
    (hparse : parseSigner a = .ok s)
    (hcert : (f s).certificates.isEmpty = false) :
    parseSigner (mapSignerApk f a) = .ok (f s) := by
  have hse := (parseSigner_ok_inv hparse).1
  unfold parseSigner
  rw [schemeEntries_map, hse]
  show (if (f s).certificates.isEmpty = true then
      (Except.error VerifyError.noCertificates : Except VerifyError SignerRecord)
    else .ok (f s)) = .ok (f s)
  rw [if_neg (by rw [hcert]; exact Bool.false_ne_true)]

/-- Replacing the additional attributes changes nothing the signer
verifier reads. -/
theorem verifySigner_setAttrs (ops : CryptoOps) (a : Apk)
    (attrs : List (Nat × Bytes)) (s : SignerRecord) :
    verifySigner ops (mapSignerApk (setAttrs attrs) a) (setAttrs attrs s) =
      verifySigner ops a s := rfl

/-- Appending a pair to the signing block changes nothing the signer
verifier reads. -/
theorem verifySigner_addPair (ops : CryptoOps) (a : Apk) (p : BlockPair)
    (s : SignerRecord) :
    verifySigner ops (addPair a p) s = verifySigner ops a s := rfl

/-- Recorded data of a present algorithm is unchanged by appending an
entry. -/
theorem dataFor_append {alg : AlgorithmId} {l : List AlgEntry} (e : AlgEntry)
    (hmem : alg ∈ entryIds l) :
    dataFor alg (l ++ [e]) = dataFor alg l := by
  rw [entryIds, List.mem_map] at hmem
  obtain ⟨x, hx, hxa⟩ := hmem
  have hsome : (l.find? (fun e => decide (e.alg = alg))).isSome := by
    rw [List.find?_isSome]
    exact ⟨x, hx, by simp [hxa]⟩
  obtain ⟨y, hy⟩ := Option.isSome_iff_exists.mp hsome
  unfold dataFor
  rw [List.find?_append, hy]
  rfl

/-- Appending an unsupported algorithm entry leaves the best supported
algorithm unchanged. -/
theorem bestSupported_append {sigs : List AlgEntry} (e : AlgEntry)
    (hsup : classify e.alg ≠ .supported) :
    bestSupported (sigs ++ [e]) = bestSupported sigs := by
  have hb : decide (classify e.alg = AlgClass.supported) = false := by
    simpa using hsup
  unfold bestSupported entryIds
  rw [List.map_append, List.filter_append]
  simp [hb]

/-- Appending entries with one shared algorithm identifier to both
sequences preserves the cross-check. -/
theorem idSetEq_append {d s : List AlgEntry} (de se : AlgEntry)
    (hds : de.alg = se.alg) (h : idSetEq d s = true) :
    idSetEq (d ++ [de]) (s ++ [se]) = true := by
  rw [idSetEq_iff] at h ⊢
  obtain ⟨h1, h2⟩ := h
  have hd : entryIds (d ++ [de]) = entryIds d ++ [de.alg] := by
    simp [entryIds]
  have hs : entryIds (s ++ [se]) = entryIds s ++ [se.alg] := by
    simp [entryIds]
  rw [hd, hs]
  constructor
  · intro i hi
    rcases List.mem_append.mp hi with hi | hi
    · exact List.mem_append.mpr (Or.inl (h1 i hi))
    · rw [List.mem_singleton] at hi
      subst hi
      exact List.mem_append.mpr (Or.inr (by rw [hds]; exact List.mem_singleton_self _))
  · intro i hi
    rcases List.mem_append.mp hi with hi | hi
    · exact List.mem_append.mpr (Or.inl (h2 i hi))
    · rw [List.mem_singleton] at hi
      subst hi
      exact List.mem_append.mpr (Or.inr (by rw [← hds]; exact List.mem_singleton_self _))

/-- C5: for an archive that verifies successfully, none of the four
benign additions causes failure: replacing the signer's additional
attributes (unknown attribute IDs included), appending an unknown
ID/value pair elsewhere in the signing block, recording one more
ignorable unsupported algorithm in the digests and signatures
sequences, or carrying a provenance-stamp attribute — each
independently still verifies successfully. -/
theorem verify_ok_ignores_benign_extras (ops : CryptoOps) (a : Apk)
    (hok : verifyApk ops a = .ok ()) :
    (∀ attrs : List (Nat × Bytes), verifyApk ops (setSignerAttrs a attrs) = .ok ()) ∧
    (∀ p : BlockPair, p.id ≠ V3_BLOCK_ID → verifyApk ops (addPair a p) = .ok ()) ∧
    (∀ d e : AlgEntry, d.alg = e.alg → classify e.alg ≠ .supported →
      d.ignorable = true → e.ignorable = true →
      verifyApk ops (addAlgApk a d e) = .ok ()) ∧
    (∀ v : Bytes, ∀ attrs : List (Nat × Bytes),
      verifyApk ops (setSignerAttrs a ((STAMP_ATTR_ID, v) :: attrs)) = .ok ()) := by
  obtain ⟨hloc, s, hparse, hver⟩ := verifyApk_ok_inv hok
  have hcert := (parseSigner_ok_inv hparse).2
  have hattrs : ∀ attrs : List (Nat × Bytes),
      verifyApk ops (setSignerAttrs a attrs) = .ok () := by
    intro attrs
    have hparse' : parseSigner (mapSignerApk (setAttrs attrs) a) =
        .ok (setAttrs attrs s) :=
      parseSigner_map (setAttrs attrs) hparse hcert
    have hloc' : locateSigningBlock (mapSignerApk (setAttrs attrs) a) = .ok () := hloc
    rw [show setSignerAttrs a attrs = mapSignerApk (setAttrs attrs) a from rfl]
    rw [verifyApk_eq_verifySigner ops _ _ hloc' hparse']
    rw [verifySigner_setAttrs]
    exact hver
  refine ⟨hattrs, ?_, ?_, fun v attrs => hattrs _⟩
  · intro p hp
    have hse := (parseSigner_ok_inv hparse).1
    have hparse' : parseSigner (addPair a p) = .ok s := by
      unfold parseSigner
      have hsche : schemeEntries (addPair a p) = schemeEntries a := by
        unfold schemeEntries addPair
        rw [List.filter_append]
        have hdrop : [p].filter (fun q => decide (q.id = V3_BLOCK_ID)) = [] := by
          simp [hp]
        rw [hdrop, List.append_nil]
      rw [hsche, hse]
      show (if s.certificates.isEmpty = true then
          (Except.error VerifyError.noCertificates : Except VerifyError SignerRecord)
        else .ok s) = .ok s
      rw [if_neg (by rw [hcert]; exact Bool.false_ne_true)]
    have hloc' : locateSigningBlock (addPair a p) = .ok () := hloc
    rw [verifyApk_eq_verifySigner ops _ s hloc' hparse']
    rw [verifySigner_addPair]
    exact hver
  · intro d e hde hsup hdi hei
    obtain ⟨hs, alg, hsel, hv, hd, hk⟩ := verifySigner_ok_inv hver
    have hbest := selectAlgorithm_ok hsel
    obtain ⟨hsupAlg, hmemAlg⟩ := bestSupported_spec hbest
    have hmemDig : alg ∈ entryIds s.digests := (idSetEq_iff.mp hs).2 alg hmemAlg
    have hparse' : parseSigner (mapSignerApk (addAlgEntry d e) a) =
        .ok (addAlgEntry d e s) :=
      parseSigner_map (addAlgEntry d e) hparse hcert
    have hloc' : locateSigningBlock (mapSignerApk (addAlgEntry d e) a) = .ok () := hloc
    rw [show addAlgApk a d e = mapSignerApk (addAlgEntry d e) a from rfl]
    rw [verifyApk_eq_verifySigner ops _ _ hloc' hparse']
    have hsets' : idSetEq (addAlgEntry d e s).digests
        (addAlgEntry d e s).signatures = true := by
      show idSetEq (s.digests ++ [d]) (s.signatures ++ [e]) = true
      exact idSetEq_append d e hde hs
    have hbest' : bestSupported (addAlgEntry d e s).signatures = some alg := by
      show bestSupported (s.signatures ++ [e]) = some alg
      rw [bestSupported_append e hsup]
      exact hbest
    have hsel' : selectAlgorithm (addAlgEntry d e s).signatures = .ok alg := by
      unfold selectAlgorithm
      rw [hbest']
    have hdata_s : dataFor alg (addAlgEntry d e s).signatures =
        dataFor alg s.signatures := by
      show dataFor alg (s.signatures ++ [e]) = dataFor alg s.signatures
      exact dataFor_append e hmemAlg
    have hdata_d : dataFor alg (addAlgEntry d e s).digests =
        dataFor alg s.digests := by
      show dataFor alg (s.digests ++ [d]) = dataFor alg s.digests
      exact dataFor_append d hmemDig
    unfold verifySigner
    rw [hsets', hsel']
    show (if ops.verifySig alg
        (ops.extractPublicKey ((addAlgEntry d e s).certificates.headD []))
        (addAlgEntry d e s).signedData
        (dataFor alg (addAlgEntry d e s).signatures) = true then
        if chunkedDigest (ops.hash alg)
            (digestSource (mapSignerApk (addAlgEntry d e) a)) =
            dataFor alg (addAlgEntry d e s).digests then
          if ops.extractPublicKey ((addAlgEntry d e s).certificates.headD []) =
              ops.spkiPublicKey ((addAlgEntry d e s).certificates.headD []) then
            (Except.ok () : Except VerifyError Unit)
          else .error .publicKeyMismatch
        else .error .digestMismatch
      else .error .signatureInvalid) = .ok ()
    rw [hdata_s, hdata_d]
    rw [show (addAlgEntry d e s).certificates = s.certificates from rfl,
        show (addAlgEntry d e s).signedData = s.signedData from rfl,
        show digestSource (mapSignerApk (addAlgEntry d e) a) = digestSource a from rfl]
    rw [if_pos hv, if_pos hd, if_pos hk]

/-- Witness for C5 at a concrete archive and all four benign
additions. -/
theorem verify_ok_ignores_benign_extras_witness :
    verifyApk demoOps (setSignerAttrs demoApk [(0x12345678, [1, 2])]) = .ok () ∧
    verifyApk demoOps (addPair demoApk ⟨0x71b1eff1, PairValue.raw [7]⟩) = .ok () ∧
    verifyApk demoOps
      (addAlgApk demoApk ⟨.dsaSha256, true, [3]⟩ ⟨.dsaSha256, true, [4]⟩) = .ok () ∧
    verifyApk demoOps (setSignerAttrs demoApk [(STAMP_ATTR_ID, [5])]) = .ok () := by
  have h := verify_ok_ignores_benign_extras demoOps demoApk rfl
  exact ⟨h.1 _, h.2.1 _ (by decide), h.2.2.1 _ _ rfl (by decide) rfl rfl,
    h.2.2.2 [5] []⟩
